import Mathlib

/-!
Verification of the FastHTML chat front-end for the LangGraph agent
(`src/react_agent/app.py`).  The definitions below are a shallow embedding
of the Python source: message dictionaries become structures with optional
fields, the streaming generator becomes a recursive function over the list
of upstream chunks, and a raised exception is modelled by a `false`
completion flag (for generators) or a missing/`error` result (for
renderers and routes).
-/

/-- Characters treated as whitespace by Python's `str.strip` / `str.isspace`
(ASCII fragment). -/
def isPySpace (c : Char) : Bool :=
  c = ' ' || c = '\t' || c = '\n' || c = '\r' || c = '\x0B' || c = '\x0C'

/-- Python `str.strip()`: drop leading and trailing whitespace. -/
def pyStrip (s : String) : String :=
  String.mk (((s.toList.dropWhile isPySpace).reverse.dropWhile isPySpace).reverse)

/-- Python `str.isspace()`: non-empty and all characters whitespace. -/
def pyIsSpace (s : String) : Bool :=
  !s.toList.isEmpty && s.toList.all isPySpace

/-- A content part of a structured message content list, as used in the
`values` branch of `message_generator`: `isDict` models `isinstance(c, dict)`
and `text` models the optional `"text"` entry. -/
structure TextPart where
  isDict : Bool := true
  text : Option String := none
deriving DecidableEq, Repr

/-- A message `"content"` field: either a plain string or a list of typed
content parts. -/
inductive Content where
  | str (s : String)
  | parts (ps : List TextPart)
deriving DecidableEq, Repr

/-- A message dictionary.  `type` models the optional `"type"` entry
(`"human"` / `"ai"`), `content` the optional `"content"` entry. -/
structure Msg where
  type : Option String := none
  content : Option Content := none
deriving DecidableEq, Repr

/-- The data payload of a stream chunk: a list of message chunks (for
`"messages"` events) or a dict holding the full `"messages"` state (for
`"values"` events). -/
inductive ChunkData where
  | msgs (ms : List Msg)
  | state (messages : List Msg)
deriving DecidableEq, Repr

/-- One upstream event from `join_stream`. -/
structure Chunk where
  event : String
  data : ChunkData
deriving DecidableEq, Repr

/-- The body of the `"messages"` branch of `message_generator`:
`for chunk_msg in chunk.data: content = chunk_msg.get("content", "");`
`if content and content.strip(): yield frame`.  The second component is
`false` when the Python code raises (calling `.strip()` on a non-empty
list); frames yielded before the raise are kept. -/
def fragmentFrames : List Msg → List String × Bool
  | [] => ([], true)
  | m :: rest =>
    match m.content.getD (Content.str "") with
    | Content.str s =>
      if (s != "") && (pyStrip s != "") then
        let r := fragmentFrames rest
        (("event: message\ndata: " ++ s ++ "\n\n") :: r.1, r.2)
      else fragmentFrames rest
    | Content.parts ps =>
      if ps.isEmpty then fragmentFrames rest
      else ([], false)

/-- The body of the `"values"` branch of `message_generator`:
inspect `chunk.data["messages"][-1]`; skip unless its `"type"` is `"ai"`;
join the text-bearing parts when the content is a list; strip; yield one
frame when non-empty.  Second component `false` models the `IndexError`
raised by `[-1]` on an empty message list. -/
def valuesFrames (msgs : List Msg) : List String × Bool :=
  match msgs.getLast? with
  | none => ([], false)
  | some last_msg =>
    if last_msg.type != some "ai" then ([], true)
    else
      let content := last_msg.content.getD (Content.str "")
      let s :=
        match content with
        | Content.str s => s
        | Content.parts ps =>
          String.join
            ((ps.filter (fun c => c.isDict && (c.text.getD "" != ""))).map
              (fun c => c.text.getD ""))
      let s := pyStrip s
      if s != "" then (["event: message\ndata: " ++ s ++ "\n\n"], true)
      else ([], true)

/-- Frames produced for a single upstream chunk by the loop body of
`message_generator`; events other than `"messages"` and `"values"` are
ignored.  A payload whose shape does not match the event kind raises in
Python and is modelled by a `false` flag. -/
def chunkFrames (c : Chunk) : List String × Bool :=
  if c.event == "messages" then
    match c.data with
    | ChunkData.msgs ms => fragmentFrames ms
    | ChunkData.state _ => ([], false)
  else if c.event == "values" then
    match c.data with
    | ChunkData.state msgs => valuesFrames msgs
    | ChunkData.msgs _ => ([], false)
  else ([], true)

/-- `message_generator(thread_id, run_id)` from `app.py`, as a function of
the finite upstream chunk sequence delivered by
`langgraph_client.runs.join_stream`.  Returns the SSE frames written to the
response in order, paired with `true` when the generator finished normally
(emitting the final close frame) and `false` when it raised mid-stream. -/
def message_generator (chunks : List Chunk) : List String × Bool :=
  match chunks with
  | [] => (["event: close\ndata:\n\n"], true)
  | c :: rest =>
    let r := chunkFrames c
    if r.2 then
      let r2 := message_generator rest
      (r.1 ++ r2.1, r2.2)
    else (r.1, false)

/-- Specification-side reading of the snapshot-content extraction: the
concatenation of the texts of the text-bearing parts of a content list. -/
def partsText (ps : List TextPart) : String :=
  String.join (ps.filterMap (fun c =>
    if c.isDict && (c.text.getD "" != "") then some (c.text.getD "") else none))

/-- The string content of a message chunk, `""` when the `"content"` entry
is missing (mirrors `chunk_msg.get("content", "")`). -/
def strContent (m : Msg) : String :=
  match m.content.getD (Content.str "") with
  | Content.str s => s
  | Content.parts _ => ""

/-- Whether a message chunk's content (with the `""` default) is a plain
string, i.e. the `"messages"` branch processes it without raising. -/
def isStrContent (m : Msg) : Bool :=
  match m.content.getD (Content.str "") with
  | Content.str _ => true
  | Content.parts _ => false

/-- The lowercase hexadecimal digit for `n % 16` (`0`–`9` then `a`–`f`). -/
def hexDigit (n : Nat) : Char :=
  if n % 16 < 10 then Char.ofNat (48 + n % 16) else Char.ofNat (87 + n % 16)

/-- The sixteen lowercase hexadecimal digit characters. -/
def hexDigits : List Char := (List.range 16).map hexDigit

/-- The 32 hexadecimal digits of a 128-bit number, most significant first. -/
def hexChars (n : Nat) : List Char :=
  (List.range 32).map (fun i => hexDigit (n / 16 ^ (31 - i)))

/-- `uuid.uuid4()` as a function of 128 random bits `r`: force the version
nibble (bits 76–79) to `4` and the variant bits (62–63) to `10`. -/
def uuid4Num (r : Nat) : Nat :=
  let n := r % 2 ^ 128
  let n := (n &&& ((2 ^ 128 - 1) - 0xf * 2 ^ 76)) ||| 0x4 * 2 ^ 76
  (n &&& ((2 ^ 128 - 1) - 0x3 * 2 ^ 62)) ||| 0x2 * 2 ^ 62

/-- `str(uuid.uuid4())` as a function of the 128 random bits: the 32 hex
digits grouped 8-4-4-4-12 with dashes. -/
def uuidStr (r : Nat) : String :=
  let h := hexChars (uuid4Num r)
  String.mk (h.take 8) ++ "-" ++ String.mk ((h.drop 8).take 4) ++ "-" ++
    String.mk ((h.drop 12).take 4) ++ "-" ++ String.mk ((h.drop 16).take 4) ++
    "-" ++ String.mk (h.drop 20)

/-- The textual format of an encoded 128-bit UUID: five dash-separated
groups of 8, 4, 4, 4 and 12 lowercase hexadecimal digits. -/
def IsUuidFormat (s : String) : Prop :=
  ∃ a b c d e : List Char,
    s = String.mk a ++ "-" ++ String.mk b ++ "-" ++ String.mk c ++ "-" ++
          String.mk d ++ "-" ++ String.mk e ∧
    a.length = 8 ∧ b.length = 4 ∧ c.length = 4 ∧ d.length = 4 ∧ e.length = 12 ∧
    ∀ ch ∈ a ++ b ++ c ++ d ++ e, ch ∈ hexDigits

/-- An incoming HTTP request, reduced to its cookie jar. -/
structure Request where
  cookies : List (String × String)
deriving DecidableEq, Repr

/-- `request.cookies.get(key)`. -/
def cookiesGet (req : Request) (key : String) : Option String :=
  (req.cookies.find? (fun p => p.1 == key)).map (fun p => p.2)

/-- `get_user_id(request)` from `app.py`: return the `user_id` cookie when
present and non-empty, otherwise a freshly generated UUID string (the
generator's 128 random bits are the parameter `rFresh`). -/
def get_user_id (req : Request) (rFresh : Nat) : String :=
  match cookiesGet req "user_id" with
  | some u => if u == "" then uuidStr rFresh else u
  | none => uuidStr rFresh

/-- A `Set-Cookie` on a response, as issued by `response.set_cookie`. -/
structure SetCookie where
  key : String
  value : String
  httponly : Bool
deriving DecidableEq, Repr

/-- The `RedirectResponse` returned by the `/` and `/new-thread` routes. -/
structure RedirectResp where
  location : String
  status_code : Nat
  setCookie : Option SetCookie
deriving DecidableEq, Repr

/-- `root(request)` from `app.py`: redirect to a fresh conversation and set
the `user_id` cookie.  `rThread` and `rUser` are the random bits of the two
`uuid.uuid4()` calls. -/
def root (req : Request) (rThread rUser : Nat) : RedirectResp :=
  let thread_id := uuidStr rThread
  let user_id := get_user_id req rUser
  { location := "/conversations/" ++ thread_id, status_code := 302,
    setCookie := some { key := "user_id", value := user_id, httponly := true } }

/-- `new_thread(request)` from `app.py`: same behaviour as `root`. -/
def new_thread (req : Request) (rThread rUser : Nat) : RedirectResp :=
  let thread_id := uuidStr rThread
  let user_id := get_user_id req rUser
  { location := "/conversations/" ++ thread_id, status_code := 302,
    setCookie := some { key := "user_id", value := user_id, httponly := true } }

/-- The rendered message bubble built by `ChatMessage`: the data that
distinguishes the produced markup. -/
structure ChatBubble where
  message_id : String
  content_id : String
  avatar_icon : String
  avatar_class : String
  bubble_class : String
  container_class : String
  content : Content
deriving DecidableEq, Repr

/-- `ChatMessage(msg, idx)` from `app.py`.  The Python reads `msg["type"]`
and `msg["content"]` with subscripts, so a record missing either key raises
`KeyError`; that is modelled by `none`. -/
def ChatMessage (msg : Msg) (idx : String) : Option ChatBubble :=
  match msg.type with
  | none => none
  | some ty =>
    let is_human := ty == "human"
    let bubble_class :=
      if is_human then "bg-message-user border-purple-200 border text-black shadow-sm"
      else "bg-message-assistant border-green-200 border text-black shadow-sm"
    let container_class := if is_human then "justify-end" else "justify-start"
    let avatar_class :=
      if is_human then
        "flex items-center justify-center w-8 h-8 rounded-full bg-purple-100 border border-purple-200 shadow-sm"
      else
        "flex items-center justify-center w-8 h-8 rounded-full bg-green-100 border border-green-200 shadow-sm"
    let avatar_icon := if is_human then "👤" else "🤖"
    match msg.content with
    | none => none
    | some content =>
      some { message_id := "chat-message-" ++ idx,
             content_id := "chat-content-" ++ idx,
             avatar_icon := avatar_icon, avatar_class := avatar_class,
             bubble_class := bubble_class, container_class := container_class,
             content := content }

/-- What `send_message` returns together with whether it reached the
`langgraph_client.runs.create` call. -/
structure SendMessageResult where
  userBubble : Option ChatBubble
  assistantPlaceholder : Option String
  runCreated : Bool
deriving DecidableEq, Repr

/-- `send_message(request, thread_id)` from `app.py`, as a function of the
submitted form field `msg`: on an empty or whitespace-only message return
`(None, None)` without creating a run; otherwise render the user bubble,
create a run (whose id `run_id` the placeholder subscribes to) and return
both.  `rIdx` is the random source of the bubble's id suffix. -/
def send_message (msg : String) (rIdx : Nat) (run_id : String) : SendMessageResult :=
  if (msg == "") || pyIsSpace msg then
    { userBubble := none, assistantPlaceholder := none, runCreated := false }
  else
    { userBubble := ChatMessage { type := some "human", content := some (Content.str msg) }
        ("user-" ++ uuidStr rIdx),
      assistantPlaceholder := some run_id,
      runCreated := true }

/-- A thread summary returned by `langgraph_client.threads.search`. -/
structure ThreadInfo where
  thread_id : String
  created_at : String
deriving DecidableEq, Repr

/-- A sidebar link rendered by `ConversationList`. -/
structure SidebarEntry where
  label : String
  created_at : String
  href : String
  highlighted : Bool
deriving DecidableEq, Repr

/-- The `state["values"]` payload from `threads.get_state`: either a list
of dicts (each with an optional `"messages"` entry) or one such dict. -/
inductive StateValues where
  | list (vs : List (Option (List Msg)))
  | dict (messages : Option (List Msg))
deriving DecidableEq, Repr

instance {ε α : Type} [DecidableEq ε] [DecidableEq α] : DecidableEq (Except ε α) :=
  fun a b =>
    match a, b with
    | Except.error e1, Except.error e2 =>
      if h : e1 = e2 then isTrue (congrArg Except.error h)
      else isFalse (fun hh => h (by cases hh; rfl))
    | Except.ok a1, Except.ok a2 =>
      if h : a1 = a2 then isTrue (congrArg Except.ok h)
      else isFalse (fun hh => h (by cases hh; rfl))
    | Except.error _, Except.ok _ => isFalse (fun hh => Except.noConfusion hh)
    | Except.ok _, Except.error _ => isFalse (fun hh => Except.noConfusion hh)

/-- The outcomes of the three remote calls made while rendering the
conversation page; `Except.error ()` models a raised remote error. -/
structure RemoteOutcomes where
  createRes : Except Unit Unit
  stateRes : Except Unit StateValues
  searchRes : Except Unit (List ThreadInfo)
deriving DecidableEq, Repr

/-- The `try`/`except` around the thread-state fetch in `conversation`:
any error — the fetch itself, a missing `"messages"` key, or indexing an
empty list — falls back to the empty history. -/
def extractMessages (stateRes : Except Unit StateValues) : List Msg :=
  match stateRes with
  | Except.error _ => []
  | Except.ok (StateValues.list vs) =>
    match vs.getLast? with
    | some (some ms) => ms
    | _ => []
  | Except.ok (StateValues.dict (some ms)) => ms
  | Except.ok (StateValues.dict none) => []

/-- `ConversationList(user_id, current_thread_id)` from `app.py`: the
result of `threads.search` rendered as sidebar links; a search error
propagates to the caller. -/
def ConversationList (user_id : String) (current_thread_id : String)
    (searchRes : Except Unit (List ThreadInfo)) : Except Unit (List SidebarEntry) :=
  match searchRes with
  | Except.error e => Except.error e
  | Except.ok threads =>
    Except.ok (((List.range threads.length).zip threads).map (fun p =>
      { label := "Thread " ++ toString (p.1 + 1),
        created_at := p.2.created_at,
        href := "/conversations/" ++ p.2.thread_id,
        highlighted := p.2.thread_id == current_thread_id }))

/-- The chat history column of the page: `ChatMessage(msg, i)` for each
message; a malformed message raises during rendering (`none`). -/
def renderChatlist (messages : List Msg) : Option (List ChatBubble) :=
  ((List.range messages.length).zip messages).mapM
    (fun p => ChatMessage p.2 (toString p.1))

/-- The conversation page as far as the claims are concerned: the sidebar,
the rendered history, and the response's (absent) `Set-Cookie`. -/
structure ConvPage where
  sidebar : List SidebarEntry
  chatlist : List ChatBubble
  setCookie : Option SetCookie
deriving DecidableEq, Repr

/-- `conversation(thread_id, request)` from `app.py`: resolve the user id,
create the thread (error propagates), fetch the state inside `try`/`except`
(error becomes an empty history), render the history, and render the
sidebar via `ConversationList` (error propagates).  The returned page sets
no cookie. -/
def conversation (thread_id : String) (req : Request) (rUser : Nat)
    (remote : RemoteOutcomes) : Except Unit ConvPage :=
  match remote.createRes with
  | Except.error e => Except.error e
  | Except.ok _ =>
    match renderChatlist (extractMessages remote.stateRes) with
    | none => Except.error ()
    | some chatlist =>
      match ConversationList (get_user_id req rUser) thread_id remote.searchRes with
      | Except.error e => Except.error e
      | Except.ok sidebar =>
        Except.ok { sidebar := sidebar, chatlist := chatlist, setCookie := none }

/-- C1: for upstream fragments "Hel", "lo", " world" followed by stream end,
the relay emits exactly three `message` frames with those literal contents
in that order, then one `close` frame with empty data, and terminates. -/
theorem c1_stream_hello_world :
    message_generator
      [⟨"messages", ChunkData.msgs [{ content := some (Content.str "Hel") }]⟩,
       ⟨"messages", ChunkData.msgs [{ content := some (Content.str "lo") }]⟩,
       ⟨"messages", ChunkData.msgs [{ content := some (Content.str " world") }]⟩] =
      (["event: message\ndata: Hel\n\n", "event: message\ndata: lo\n\n",
        "event: message\ndata:  world\n\n", "event: close\ndata:\n\n"], true) := by
  decide

theorem chunkFrames_values (ms : List Msg) :
    chunkFrames ⟨"values", ChunkData.state ms⟩ = valuesFrames ms := rfl

theorem chunkFrames_messages (ms : List Msg) :
    chunkFrames ⟨"messages", ChunkData.msgs ms⟩ = fragmentFrames ms := rfl

/-- C2: for every finite upstream event sequence on which the loop body
never raises, the emitted frame sequence is the in-order concatenation of
the per-event frames, followed by exactly one terminal `close` frame, after
which nothing further is emitted. -/
theorem c2_frames_flatmap_then_close (chunks : List Chunk)
    (h : ∀ c ∈ chunks, (chunkFrames c).2 = true) :
    message_generator chunks =
      (chunks.flatMap (fun c => (chunkFrames c).1) ++ ["event: close\ndata:\n\n"],
       true) := by
  induction chunks with
  | nil => rfl
  | cons c rest ih =>
    have hc : (chunkFrames c).2 = true := h c (List.mem_cons_self c rest)
    have hrest : ∀ x ∈ rest, (chunkFrames x).2 = true :=
      fun x hx => h x (List.mem_cons_of_mem c hx)
    simp [message_generator, hc, ih hrest]

theorem c2_frames_flatmap_then_close_witness :
    message_generator
        [⟨"messages", ChunkData.msgs [{ content := some (Content.str "Hi") }]⟩] =
      (([⟨"messages", ChunkData.msgs [{ content := some (Content.str "Hi") }]⟩] :
          List Chunk).flatMap (fun c => (chunkFrames c).1) ++
        ["event: close\ndata:\n\n"], true) :=
  c2_frames_flatmap_then_close _ (by decide)

theorem message_generator_skip (c : Chunk) (hc : chunkFrames c = ([], true))
    (pre post : List Chunk) :
    message_generator (pre ++ c :: post) = message_generator (pre ++ post) := by
  induction pre with
  | nil => simp [message_generator, hc]
  | cons d ds ih => simp [message_generator, ih]

/-- C3: a full-state snapshot event (chunk event `"values"`) whose last
message does not carry the assistant type `"ai"` contributes no SSE frame:
the relay's output on any stream containing it equals its output with the
event removed. -/
theorem c3_nonassistant_snapshot_suppressed (ms : List Msg) (last_msg : Msg)
    (h1 : ms.getLast? = some last_msg) (h2 : last_msg.type ≠ some "ai")
    (pre post : List Chunk) :
    message_generator (pre ++ (⟨"values", ChunkData.state ms⟩ : Chunk) :: post) =
      message_generator (pre ++ post) := by
  apply message_generator_skip
  rw [chunkFrames_values]
  simp only [valuesFrames, h1]
  simp [h2]

theorem c3_nonassistant_snapshot_suppressed_witness :
    (([{ type := some "human", content := some (Content.str "hi") }] : List Msg).getLast?
        = some ({ type := some "human", content := some (Content.str "hi") } : Msg)) ∧
    message_generator
        ([] ++ (⟨"values", ChunkData.state
            [{ type := some "human", content := some (Content.str "hi") }]⟩ : Chunk)
          :: []) =
      message_generator ([] ++ []) :=
  ⟨by decide,
   c3_nonassistant_snapshot_suppressed
     [{ type := some "human", content := some (Content.str "hi") }]
     { type := some "human", content := some (Content.str "hi") }
     (by decide) (by decide) [] []⟩

theorem filter_map_eq_filterMap (p : TextPart → Bool) (f : TextPart → String)
    (l : List TextPart) :
    (l.filter p).map f = l.filterMap (fun a => if p a then some (f a) else none) := by
  induction l with
  | nil => rfl
  | cons a l ih =>
    by_cases hp : p a <;> simp [List.filter_cons, List.filterMap_cons, hp, ih]

/-- C4: a full-state snapshot whose last message has type `"ai"` and whose
content is a list of typed parts yields the concatenation of the texts of
the text-bearing parts, stripped of surrounding whitespace, emitted as a
single `message` frame when non-empty (and nothing when empty). -/
theorem c4_assistant_snapshot_parts (ms : List Msg) (last_msg : Msg)
    (ps : List TextPart)
    (h1 : ms.getLast? = some last_msg) (h2 : last_msg.type = some "ai")
    (h3 : last_msg.content = some (Content.parts ps)) :
    chunkFrames ⟨"values", ChunkData.state ms⟩ =
      (if pyStrip (partsText ps) = "" then ([], true)
       else (["event: message\ndata: " ++ pyStrip (partsText ps) ++ "\n\n"], true)) := by
  rw [chunkFrames_values]
  simp only [valuesFrames, h1, h2, h3]
  rw [partsText, ← filter_map_eq_filterMap]
  by_cases hz : pyStrip (String.join
      ((ps.filter (fun c => c.isDict && (c.text.getD "" != ""))).map
        (fun c => c.text.getD ""))) = "" <;>
    simp [hz]

theorem c4_assistant_snapshot_parts_witness :
    chunkFrames ⟨"values", ChunkData.state
        [{ type := some "ai",
           content := some (Content.parts [⟨true, some "Hi"⟩, ⟨true, some " there"⟩]) }]⟩ =
      (["event: message\ndata: Hi there\n\n"], true) := by
  rw [c4_assistant_snapshot_parts _
        { type := some "ai",
          content := some (Content.parts [⟨true, some "Hi"⟩, ⟨true, some " there"⟩]) }
        [⟨true, some "Hi"⟩, ⟨true, some " there"⟩] (by decide) rfl rfl]
  decide

/-- C5 (code bug): the relay interpolates fragment content into the
`data:` field verbatim — a fragment containing a raw blank line is framed
with that blank line inside the frame, with no escaping or stripping. -/
theorem c5_newline_passthrough :
    message_generator
        [⟨"messages", ChunkData.msgs
            [{ content := some (Content.str "line1\n\nline2") }]⟩] =
      (["event: message\ndata: line1\n\nline2\n\n", "event: close\ndata:\n\n"],
       true) := by
  decide

/-- C10: a single `"messages"` event carrying several message chunks yields,
in order, one `message` frame per chunk whose content is non-empty after
whitespace stripping — zero, one, or several frames for one event. -/
theorem c10_fragment_event_frames (ms : List Msg)
    (h : ∀ m ∈ ms, isStrContent m = true) :
    chunkFrames ⟨"messages", ChunkData.msgs ms⟩ =
      (ms.filterMap (fun m =>
        if pyStrip (strContent m) = "" then none
        else some ("event: message\ndata: " ++ strContent m ++ "\n\n")), true) := by
  rw [chunkFrames_messages]
  induction ms with
  | nil => rfl
  | cons m rest ih =>
    have hm : isStrContent m = true := h m (List.mem_cons_self m rest)
    have hrest : ∀ x ∈ rest, isStrContent x = true :=
      fun x hx => h x (List.mem_cons_of_mem m hx)
    obtain ⟨s, hs⟩ : ∃ s, m.content.getD (Content.str "") = Content.str s := by
      revert hm
      unfold isStrContent
      cases m.content.getD (Content.str "") <;> simp
    have hsc : strContent m = s := by simp [strContent, hs]
    by_cases hz : pyStrip s = ""
    · simp [fragmentFrames, hs, hsc, hz, ih hrest, List.filterMap_cons]
    · have hne : s ≠ "" := by
        intro h0
        rw [h0] at hz
        exact hz rfl
      simp [fragmentFrames, hs, hsc, hz, hne, ih hrest, List.filterMap_cons]

theorem c10_fragment_event_frames_witness :
    (∀ m ∈ ([{ content := some (Content.str "Hi") },
             { content := some (Content.str "  ") },
             { content := some (Content.str "yo") }] : List Msg),
        isStrContent m = true) ∧
    chunkFrames ⟨"messages", ChunkData.msgs
        [{ content := some (Content.str "Hi") },
         { content := some (Content.str "  ") },
         { content := some (Content.str "yo") }]⟩ =
      (([{ content := some (Content.str "Hi") },
         { content := some (Content.str "  ") },
         { content := some (Content.str "yo") }] : List Msg).filterMap (fun m =>
          if pyStrip (strContent m) = "" then none
          else some ("event: message\ndata: " ++ strContent m ++ "\n\n")), true) :=
  ⟨by decide, c10_fragment_event_frames _ (by decide)⟩

theorem toList_eq_nil_iff (s : String) : s.toList = [] ↔ s = "" := by
  constructor
  · intro h
    cases s with
    | mk l =>
      cases l with
      | nil => rfl
      | cons c cs => simp [String.toList] at h
  · intro h
    rw [h]
    rfl

theorem send_message_cond (msg : String) :
    ((msg == "") || pyIsSpace msg) = msg.toList.all isPySpace := by
  by_cases hm : msg = ""
  · rw [hm]
    rfl
  · have h1 : (msg == "") = false := beq_eq_false_iff_ne.mpr hm
    have h2 : msg.toList.isEmpty = false := by
      cases hl : msg.toList with
      | nil => exact absurd ((toList_eq_nil_iff msg).mp hl) hm
      | cons c cs => rfl
    rw [h1, pyIsSpace, h2]
    simp

/-- C6: a submitted message that is empty or consists only of whitespace
yields no user bubble, no assistant placeholder and no run; a run is
created exactly when the message has a non-whitespace character. -/
theorem c6_whitespace_short_circuits (msg : String) (rIdx : Nat) (run_id : String) :
    (msg.toList.all isPySpace = true →
      send_message msg rIdx run_id = ⟨none, none, false⟩) ∧
    ((send_message msg rIdx run_id).runCreated = true ↔
      ¬ msg.toList.all isPySpace = true) := by
  constructor
  · intro hall
    simp only [send_message, send_message_cond, hall]
    simp
  · cases hb : msg.toList.all isPySpace with
    | true =>
      simp only [send_message, send_message_cond, hb]
      simp
    | false =>
      simp only [send_message, send_message_cond, hb]
      simp

theorem c6_whitespace_short_circuits_witness :
    ("   ".toList.all isPySpace = true) ∧
    send_message "   " 0 "r1" = ⟨none, none, false⟩ :=
  ⟨by decide, (c6_whitespace_short_circuits "   " 0 "r1").1 (by decide)⟩

theorem hexDigit_mem (n : Nat) : hexDigit n ∈ hexDigits := by
  refine List.mem_map.mpr ⟨n % 16, List.mem_range.mpr (Nat.mod_lt _ (by norm_num)), ?_⟩
  have h : n % 16 % 16 = n % 16 := by omega
  simp only [hexDigit, h]

theorem hexChars_length (n : Nat) : (hexChars n).length = 32 := by
  simp [hexChars]

theorem mem_hexChars (n : Nat) (c : Char) (hc : c ∈ hexChars n) : c ∈ hexDigits := by
  simp only [hexChars, List.mem_map] at hc
  obtain ⟨i, _, rfl⟩ := hc
  exact hexDigit_mem _

theorem uuidStr_format (r : Nat) : IsUuidFormat (uuidStr r) := by
  refine ⟨(hexChars (uuid4Num r)).take 8, ((hexChars (uuid4Num r)).drop 8).take 4,
    ((hexChars (uuid4Num r)).drop 12).take 4, ((hexChars (uuid4Num r)).drop 16).take 4,
    (hexChars (uuid4Num r)).drop 20, rfl, ?_, ?_, ?_, ?_, ?_, ?_⟩
  · simp [List.length_take, hexChars_length]
  · simp [List.length_take, List.length_drop, hexChars_length]
  · simp [List.length_take, List.length_drop, hexChars_length]
  · simp [List.length_take, List.length_drop, hexChars_length]
  · simp [List.length_drop, hexChars_length]
  · intro ch hch
    simp only [List.mem_append] at hch
    rcases hch with ((((h | h) | h) | h) | h)
    · exact mem_hexChars _ _ (List.take_subset _ _ h)
    · exact mem_hexChars _ _ (List.drop_subset _ _ (List.take_subset _ _ h))
    · exact mem_hexChars _ _ (List.drop_subset _ _ (List.take_subset _ _ h))
    · exact mem_hexChars _ _ (List.drop_subset _ _ (List.take_subset _ _ h))
    · exact mem_hexChars _ _ (List.drop_subset _ _ h)

/-- C7 fails as stated: the conversation page route resolves a user
identity, yet its response sets no cookie at all — here a cookie-absent
request yields a page whose `setCookie` is `none`. -/
theorem c7_conversation_sets_no_cookie :
    conversation "t1" { cookies := [] } 0
        { createRes := Except.ok (), stateRes := Except.ok (StateValues.dict none),
          searchRes := Except.ok [] } =
      Except.ok { sidebar := [], chatlist := [], setCookie := none } := by
  decide

/-- C7 (amended): for a cookie-absent request the Identity Resolver returns
the freshly generated token, which is in UUID text format; the root and
new-thread redirects set the `user_id` cookie to exactly that token; the
conversation page resolves the identity the same way but sets no cookie. -/
theorem c7_fresh_cookie_on_redirect_routes (req : Request)
    (h : cookiesGet req "user_id" = none) (rT rU : Nat) (tid : String)
    (remote : RemoteOutcomes) :
    get_user_id req rU = uuidStr rU ∧
    IsUuidFormat (uuidStr rU) ∧
    (root req rT rU).setCookie =
      some { key := "user_id", value := uuidStr rU, httponly := true } ∧
    (new_thread req rT rU).setCookie =
      some { key := "user_id", value := uuidStr rU, httponly := true } ∧
    ∀ page, conversation tid req rU remote = Except.ok page →
      page.setCookie = none := by
  have hg : get_user_id req rU = uuidStr rU := by rw [get_user_id, h]
  refine ⟨hg, uuidStr_format rU, ?_, ?_, ?_⟩
  · simp [root, hg]
  · simp [new_thread, hg]
  · intro page hp
    unfold conversation at hp
    split at hp
    · exact Except.noConfusion hp
    · split at hp
      · exact Except.noConfusion hp
      · split at hp
        · exact Except.noConfusion hp
        · cases hp
          rfl

theorem c7_fresh_cookie_on_redirect_routes_witness :
    cookiesGet { cookies := [] } "user_id" = none ∧
    (get_user_id { cookies := [] } 1 = uuidStr 1 ∧
     IsUuidFormat (uuidStr 1) ∧
     (root { cookies := [] } 0 1).setCookie =
       some { key := "user_id", value := uuidStr 1, httponly := true } ∧
     (new_thread { cookies := [] } 0 1).setCookie =
       some { key := "user_id", value := uuidStr 1, httponly := true } ∧
     ∀ page, conversation "t1" { cookies := [] } 1
         { createRes := Except.ok (), stateRes := Except.ok (StateValues.dict none),
           searchRes := Except.ok [] } = Except.ok page →
       page.setCookie = none) :=
  ⟨rfl, c7_fresh_cookie_on_redirect_routes { cookies := [] } rfl 0 1 "t1" _⟩

/-- C8 fails as stated: an error in the thread-listing search propagates
out of the conversation route — the page render fails instead of degrading
to an empty thread list. -/
theorem c8_search_error_fails_page :
    conversation "t1" { cookies := [("user_id", "u1")] } 0
        { createRes := Except.ok (), stateRes := Except.ok (StateValues.dict (some [])),
          searchRes := Except.error () } =
      Except.error () := by
  decide

/-- C8 (amended): an error in the thread-state fetch is replaced by an
empty message history and the page still renders (with the full sidebar);
only the unguarded search and create calls can fail the page. -/
theorem c8_state_error_degrades (tid : String) (req : Request) (rU : Nat)
    (threads : List ThreadInfo) :
    ∃ page, conversation tid req rU
        { createRes := Except.ok (), stateRes := Except.error (),
          searchRes := Except.ok threads } = Except.ok page ∧
      page.chatlist = [] ∧ page.sidebar.length = threads.length := by
  refine ⟨_, rfl, rfl, ?_⟩
  simp

/-- C9 fails as stated: `ChatMessage` is not total — a record with a
missing content field raises (`none`) rather than rendering as if the
content were the empty string. -/
theorem c9_missing_content_raises :
    ChatMessage { type := some "human" } "0" = none ∧
    ChatMessage { type := some "human", content := some (Content.str "") } "0" ≠ none := by
  decide

/-- C9 (amended): on records carrying both the type and content fields,
`ChatMessage` always renders, and any type other than `"human"` renders
with the assistant left-aligned style. -/
theorem c9_total_on_wellformed (ty : String) (content : Content) (idx : String) :
    (ChatMessage { type := some ty, content := some content } idx).isSome = true ∧
    (ty ≠ "human" →
      (ChatMessage { type := some ty, content := some content } idx).map
          ChatBubble.container_class = some "justify-start") := by
  constructor
  · simp [ChatMessage]
  · intro hty
    have hb : (ty == "human") = false := beq_eq_false_iff_ne.mpr hty
    simp [ChatMessage, hb]

theorem c9_total_on_wellformed_witness :
    ("ai" ≠ "human") ∧
    (ChatMessage { type := some "ai", content := some (Content.str "hey") } "1").map
        ChatBubble.container_class = some "justify-start" :=
  ⟨by decide, (c9_total_on_wellformed "ai" (Content.str "hey") "1").2 (by decide)⟩
